import Mathlib

/-!
Verification of the change-detection and notification pipeline of the
ticket-availability monitor.  The Python modules are shallowly embedded:

* `src/app/monitor/parse.py`  — `SectorParser` (availability classifier,
  identifier extraction and cleanup, `normalize_sectors`);
* `src/app/monitor/diff.py`   — `SnapshotComparator` (`detect_changes`,
  `should_send_alert`);
* `src/app/alerts/sms.py`     — `SMSAlertService` (phone validation,
  registration, deduplication gate, batch fan-out);
* `src/app/main.py`           — `TicketmasterMonitor.monitor_single_event`
  (per-target cycle, modelled as a trace of abstract operations).

Python strings are modelled as Lean `String` (character lists, ASCII
reading of `\w`, `\s` and `.lower()`); timestamps are `Int` values in
minutes; the database session is explicit state.
-/

namespace TicketMonitor

/-! ### Python string primitives -/

/-- Python regex whitespace class (ASCII reading of backslash-s). -/
def pySpace (c : Char) : Bool :=
  c == ' ' || c == '\t' || c == '\n' || c == '\r' || c == '\x0b' || c == '\x0c'

/-- Python regex word-character class (ASCII reading of backslash-w): alphanumerics and underscore. -/
def pyWordChar (c : Char) : Bool :=
  c.isAlphanum || c == '_'

/-- Python `str.lower()` (character-wise, ASCII reading). -/
def lowerStr (s : String) : String :=
  ⟨s.data.map Char.toLower⟩

/-- Does `hay` start with `needle`?  (Helper for the substring test.) -/
def leadsWith : List Char → List Char → Bool
  | [], _ => true
  | _ :: _, [] => false
  | a :: as, b :: bs => a == b && leadsWith as bs

/-- Python substring test `needle in hay` on character lists. -/
def containsChars (needle : List Char) : List Char → Bool
  | [] => needle.isEmpty
  | b :: bs => leadsWith needle (b :: bs) || containsChars needle bs

/-- Propositional substring containment: `n` occurs contiguously in `h`. -/
def ContainsSub (n h : List Char) : Prop :=
  ∃ s t, s ++ n ++ t = h

/-- Python `str.strip()` on a character list. -/
def pyStripChars (l : List Char) : List Char :=
  ((l.dropWhile pySpace).reverse.dropWhile pySpace).reverse

/-- Python `str.strip()` on a string. -/
def pyStrip (s : String) : String :=
  ⟨pyStripChars s.data⟩

/-- Worker for `collapseWs`: the flag records whether the previous
character belonged to a whitespace run already replaced by `_`. -/
def collapseWsAux : Bool → List Char → List Char
  | _, [] => []
  | inRun, c :: rest =>
    if pySpace c then
      if inRun then collapseWsAux true rest
      else '_' :: collapseWsAux true rest
    else c :: collapseWsAux false rest

/-- Embedding of the whitespace-collapsing substitution: each maximal
whitespace run becomes a single underscore. -/
def collapseWs (l : List Char) : List Char :=
  collapseWsAux false l

/-! ### `SectorParser` (src/app/monitor/parse.py) -/

/-- One raw observed item: the attribute bag read off the DOM.  Absent
dictionary keys are modelled as `""` (the code reads them with
`sector.get` with default "", and the `or`-chain in `_extract_sector_id`
treats `None` and `""` identically). -/
structure RawSector where
  id : String := ""
  data_sector_id : String := ""
  data_section : String := ""
  aria_label : String := ""
  title : String := ""
  text_content : String := ""
  class_names : String := ""
  data_status : String := ""
  style : String := ""
  fill : String := ""
deriving DecidableEq, Repr

def available_indicators : List String :=
  ["disponible", "available", "selectable", "enabled"]

def unavailable_indicators : List String :=
  ["no disponible", "unavailable", "disabled", "sold out", "agotado"]

/-- Embedding of `SectorParser._is_sector_available`: ordered precedence of signals. -/
def _is_sector_available (sec : RawSector) : Bool :=
  let aria := lowerStr sec.aria_label
  if available_indicators.any (fun ind => containsChars ind.data aria.data) then true
  else if unavailable_indicators.any (fun ind => containsChars ind.data aria.data) then false
  else
    let cls := lowerStr sec.class_names
    if containsChars "available".data cls.data || containsChars "selectable".data cls.data then
      true
    else if containsChars "disabled".data cls.data || containsChars "unavailable".data cls.data then
      false
    else
      let ds := lowerStr sec.data_status
      if ds == "available" || ds == "enabled" || ds == "selectable" then true
      else if ds == "unavailable" || ds == "disabled" || ds == "sold-out" then false
      else
        let sty := lowerStr sec.style
        let fl := lowerStr sec.fill
        if ["blue", "#0066cc", "#007bff"].any
            (fun c => containsChars c.data sty.data || containsChars c.data fl.data) then
          true
        else if ["gray", "grey", "#cccccc", "#999999"].any
            (fun c => containsChars c.data sty.data || containsChars c.data fl.data) then
          false
        else false

/-- The identifier cleanup of `_extract_sector_id`: drop every character
that is not a word character, whitespace or hyphen; strip; collapse each
whitespace run to a single underscore; lower-case. -/
def cleanSectorId (raw : String) : String :=
  let step1 := raw.data.filter (fun c => pyWordChar c || pySpace c || c == '-')
  ⟨(collapseWs (pyStripChars step1)).map Char.toLower⟩

/-- The `or`-chain over candidate id sources: first non-empty string wins. -/
def firstTruthy (l : List String) : Option String :=
  l.find? (fun s => !(s == ""))

/-- Embedding of `SectorParser._extract_sector_id`.  Returns `none` when every id source
is empty (Python returns `None`); otherwise the cleaned identifier, which
may itself be `""`. -/
def _extract_sector_id (sec : RawSector) : Option String :=
  match firstTruthy [sec.id, sec.data_sector_id, sec.data_section,
      sec.aria_label, sec.title, pyStrip sec.text_content] with
  | some raw => some (cleanSectorId raw)
  | none => none

/-- Embedding of `SectorParser.normalize_sectors`: the set of cleaned identifiers of the
available items (the Python loop inserts into a growing `set`; here the
kept identifiers are collected and converted to a `Finset`). -/
def normalize_sectors (l : List RawSector) : Finset String :=
  (l.filterMap (fun sec =>
    if _is_sector_available sec then
      match _extract_sector_id sec with
      | some sid => if sid == "" then none else some sid
      | none => none
    else none)).toFinset

/-! ### `SnapshotComparator` (src/app/monitor/diff.py) -/

/-- The dictionary returned by `detect_changes` (the `timestamp` entry,
a wall-clock string irrelevant to the claims, is omitted). -/
structure ChangeInfo where
  has_changes : Bool
  new_sectors : Finset String
  removed_sectors : Finset String
  unchanged_sectors : Finset String
  total_previous : Nat
  total_current : Nat
deriving DecidableEq

/-- Embedding of `SnapshotComparator.detect_changes`. -/
def detect_changes (previous current : Finset String) : ChangeInfo :=
  { has_changes := decide (0 < (current \ previous).card)
      || decide (0 < (previous \ current).card)
    new_sectors := current \ previous
    removed_sectors := previous \ current
    unchanged_sectors := current ∩ previous
    total_previous := previous.card
    total_current := current.card }

/-- Embedding of `SnapshotComparator.should_send_alert`. -/
def should_send_alert (info : ChangeInfo) : Bool :=
  decide (0 < info.new_sectors.card)

/-! ### `SMSAlertService` (src/app/alerts/sms.py) -/

def ALERT_MESSAGE : String := "Hay cambios en la plataforma"

/-- The deduplication window, in minutes (all timestamps below are `Int`
minutes). -/
def DEDUPLICATION_WINDOW_MINUTES : Int := 5

/-- One row of the `sms_logs` table. -/
structure SMSLogEntry where
  phone : String
  message : String
  success : Bool
  error_message : Option String
  timestamp : Int
deriving DecidableEq, Repr

/-- One row of the `phone_numbers` table. -/
structure PhoneRecord where
  phone : String
  active : Bool
  registered_at : Int
deriving DecidableEq, Repr

/-- The state visible to `SMSAlertService`: whether the Twilio client was
initialised, the two tables it touches, and the current clock
(`datetime.utcnow()`), in minutes. -/
structure SMSState where
  configured : Bool
  smsLog : List SMSLogEntry
  phones : List PhoneRecord
  now : Int
deriving DecidableEq

/-- Step 1 of `SMSAlertService.validate_phone_number`: remove every
character other than digits and the plus sign. -/
def cleanPhone (s : String) : String :=
  ⟨s.data.filter (fun c => c.isDigit || c == '+')⟩

/-- Test for a plus sign followed by 10 to 15 digits and nothing else. -/
def matchesIntl (s : String) : Bool :=
  match s.data with
  | '+' :: rest => rest.all (·.isDigit) && decide (10 ≤ rest.length) && decide (rest.length ≤ 15)
  | _ => false

/-- Test for exactly 10 digits and nothing else. -/
def matchesLocal10 (s : String) : Bool :=
  s.data.all (·.isDigit) && decide (s.data.length = 10)

/-- Embedding of `SMSAlertService.validate_phone_number`. -/
def validate_phone_number (phone : String) : Bool × String :=
  let cleaned := cleanPhone phone
  if matchesIntl cleaned then (true, cleaned)
  else if matchesLocal10 cleaned then (true, "+57" ++ cleaned)
  else (false, phone)

/-- Embedding of `SMSAlertService._should_skip_due_to_deduplication`: a successful log
row with the exact alert text, newer than `now` minus the window, exists.
The query filters by neither phone nor event. -/
def _should_skip_due_to_deduplication (st : SMSState) : Bool :=
  st.smsLog.any (fun e =>
    decide (st.now - DEDUPLICATION_WINDOW_MINUTES < e.timestamp)
      && e.success && (e.message == ALERT_MESSAGE))

/-- Embedding of `SMSAlertService._get_active_phone_numbers`. -/
def _get_active_phone_numbers (st : SMSState) : List String :=
  (st.phones.filter (fun r => r.active)).map (fun r => r.phone)

/-- The dictionary `send_change_alert` returns (fields absent from a given
Python return value keep their defaults). -/
structure BatchResult where
  success : Bool
  error : Option String := none
  skipped : Bool := false
  reason : Option String := none
  total_phones : Nat := 0
  sent_count : Nat := 0
  failed_count : Nat := 0
  errors : List String := []
  dry_run : Bool := false
deriving DecidableEq, Repr

/-- The per-recipient loop of `send_change_alert`.  `deliver p = none`
models a successful Twilio send to `p`, `deliver p = some e` a failure
with error text `e` (`_send_sms_to_phone` catches its own exceptions and
returns `(False, msg)`).  Every attempt appends one log row; the third
component is the trace of recipients actually contacted. -/
def sendLoop (deliver : String → Option String) (dryRun : Bool) (now : Int) :
    List String → BatchResult × List SMSLogEntry × List String →
      BatchResult × List SMSLogEntry × List String
  | [], acc => acc
  | p :: rest, (res, log, att) =>
    if dryRun then
      sendLoop deliver dryRun now rest
        ({ res with sent_count := res.sent_count + 1 },
         log ++ [⟨p, ALERT_MESSAGE, true, none, now⟩], att ++ [p])
    else
      match deliver p with
      | none =>
        sendLoop deliver dryRun now rest
          ({ res with sent_count := res.sent_count + 1 },
           log ++ [⟨p, ALERT_MESSAGE, true, none, now⟩], att ++ [p])
      | some err =>
        sendLoop deliver dryRun now rest
          ({ res with
              failed_count := res.failed_count + 1
              errors := res.errors ++ [p ++ ": " ++ err] },
           log ++ [⟨p, ALERT_MESSAGE, false, some err, now⟩], att ++ [p])

/-- Embedding of `SMSAlertService.send_change_alert`.  Returns the result dictionary,
the post-state, and the list of recipients a delivery attempt was made
for (dry-run included). -/
def send_change_alert (st : SMSState) (_event_id : String)
    (_new_sectors : List String) (dryRun : Bool)
    (deliver : String → Option String) :
    BatchResult × SMSState × List String :=
  if !st.configured then
    ({ success := false, error := some "SMS service not configured" }, st, [])
  else if _should_skip_due_to_deduplication st then
    ({ success := true, skipped := true, reason := some "deduplication" }, st, [])
  else
    let activePhones := _get_active_phone_numbers st
    if activePhones.isEmpty then
      ({ success := true, skipped := true, reason := some "no_phones" }, st, [])
    else
      let init : BatchResult :=
        { success := true, total_phones := activePhones.length, dry_run := dryRun }
      let (res, log, att) := sendLoop deliver dryRun st.now activePhones (init, st.smsLog, [])
      (res, { st with smsLog := log }, att)

/-- In-place reactivation of the first `phone_numbers` row matching
`p` (the ORM mutates the row found by `.first()`). -/
def reactivateFirst : List PhoneRecord → String → Int → List PhoneRecord
  | [], _, _ => []
  | r :: rest, p, t =>
    if r.phone == p then { r with active := true, registered_at := t } :: rest
    else r :: reactivateFirst rest p t

/-- The dictionary `register_phone_number` returns. -/
structure RegResult where
  success : Bool
  message : Option String := none
  error : Option String := none
  phone : Option String := none
deriving DecidableEq, Repr

/-- Embedding of `SMSAlertService.register_phone_number`. -/
def register_phone_number (st : SMSState) (phone : String) : RegResult × SMSState :=
  let v := validate_phone_number phone
  if !v.1 then
    ({ success := false,
       error := some "Invalid phone number format. Use E.164 format (+573001234567)" }, st)
  else
    let normalized := v.2
    match st.phones.find? (fun r => r.phone == normalized) with
    | some existing =>
      if existing.active then
        ({ success := false, error := some "Phone number already registered and active" }, st)
      else
        ({ success := true, message := some "Phone number reactivated successfully",
           phone := some normalized },
         { st with phones := reactivateFirst st.phones normalized st.now })
    | none =>
      ({ success := true, message := some "Phone number registered successfully",
         phone := some normalized },
       { st with phones := st.phones ++ [⟨normalized, true, st.now⟩] })

/-! ### `TicketmasterMonitor.monitor_single_event` (src/app/main.py) -/

/-- The externally observable operations of one target cycle, in the order
the code performs them. -/
inductive MonOp where
  | observe
  | normalize
  | readPrevious
  | detect
  | saveSnapshot
  | updateTimestamp
  | logChange
  | dispatchAlert
deriving DecidableEq, Repr

/-- The result dictionary of `monitor_single_event` (the `new_sectors`
list is kept as a set). -/
structure MonitorResult where
  event_id : String
  success : Bool
  sectors_found : Nat
  changes_detected : Bool
  new_sectors : Finset String
  sms_sent : Bool
  error : Option String
deriving DecidableEq

/-- Outcome of one target cycle: the returned dictionary, the trace of operations
performed, and whether the new snapshot row actually reached the
database (`_save_snapshot` swallows write failures). -/
structure CycleOutcome where
  result : MonitorResult
  trace : List MonOp
  snapshotPersisted : Bool
deriving DecidableEq

/-- Embedding of `TicketmasterMonitor.monitor_single_event`.  Here `scrape`
is the return value of the scraper (`none` = scrape failure; the scraper
normalizes raw items internally, hence `MonOp.normalize` inside the
observation step); `prev` the previous snapshot; `snapshotWriteOk` whether
the snapshot insert succeeds (`_save_snapshot` logs and swallows a
failure); `smsSuccess` the `success` field of the dispatcher result. -/
def monitor_single_event (eventId : String) (scrape : Option (List String))
    (prev : Finset String) (snapshotWriteOk : Bool) (smsSuccess : Bool) :
    CycleOutcome :=
  match scrape with
  | none =>
    { result := { event_id := eventId, success := false, sectors_found := 0,
                  changes_detected := false, new_sectors := ∅, sms_sent := false,
                  error := some "Failed to scrape event" }
      trace := [.observe]
      snapshotPersisted := false }
  | some current =>
    let currentSet := current.toFinset
    let info := detect_changes prev currentSet
    let baseTrace : List MonOp :=
      [.observe, .normalize, .readPrevious, .detect, .saveSnapshot, .updateTimestamp]
    if should_send_alert info then
      { result := { event_id := eventId, success := true, sectors_found := current.length,
                    changes_detected := info.has_changes, new_sectors := info.new_sectors,
                    sms_sent := smsSuccess, error := none }
        trace := baseTrace ++ [.logChange, .dispatchAlert]
        snapshotPersisted := snapshotWriteOk }
    else
      { result := { event_id := eventId, success := true, sectors_found := current.length,
                    changes_detected := info.has_changes, new_sectors := info.new_sectors,
                    sms_sent := false, error := none }
        trace := baseTrace
        snapshotPersisted := snapshotWriteOk }

/-! ### Substring lemmas -/

lemma leadsWith_append (n t : List Char) : leadsWith n (n ++ t) = true := by
  induction n with
  | nil => rfl
  | cons a as ih => simp [leadsWith, ih]

lemma containsChars_self_append (n t : List Char) : containsChars n (n ++ t) = true := by
  cases n with
  | nil => cases t <;> simp [containsChars, leadsWith, List.isEmpty]
  | cons a as =>
    have h := leadsWith_append (a :: as) t
    simp only [List.cons_append] at h
    simp only [List.cons_append, containsChars]
    simp [h]

lemma containsChars_cons (n : List Char) (b : Char) (bs : List Char)
    (h : containsChars n bs = true) : containsChars n (b :: bs) = true := by
  simp [containsChars, h]

lemma containsChars_of_sub {n h : List Char} (hc : ContainsSub n h) :
    containsChars n h = true := by
  obtain ⟨s, t, rfl⟩ := hc
  induction s with
  | nil => simpa using containsChars_self_append n t
  | cons b bs ih =>
    simp only [List.cons_append]
    exact containsChars_cons _ _ _ ih

lemma ContainsSub.trans {a b c : List Char} (h1 : ContainsSub a b)
    (h2 : ContainsSub b c) : ContainsSub a c := by
  obtain ⟨s1, t1, rfl⟩ := h1
  obtain ⟨s2, t2, rfl⟩ := h2
  exact ⟨s2 ++ s1, t1 ++ t2, by simp⟩

lemma ContainsSub.map {n h : List Char} (f : Char → Char) (hc : ContainsSub n h) :
    ContainsSub (n.map f) (h.map f) := by
  obtain ⟨s, t, rfl⟩ := hc
  exact ⟨s.map f, t.map f, by simp⟩

/-! ### Claim C2: the change detector computes exact set differences -/

/-- C2: for all finite sets of strings `A` (previous) and `B` (current),
`detect_changes A B` returns new items `B − A`, removed items `A − B`,
unchanged items `A ∩ B`, previous count `|A|`, current count `|B|`, and
`has_changes` true iff `B − A` or `A − B` is non-empty. -/
theorem detect_changes_exact (A B : Finset String) :
    (detect_changes A B).new_sectors = B \ A ∧
    (detect_changes A B).removed_sectors = A \ B ∧
    (detect_changes A B).unchanged_sectors = A ∩ B ∧
    (detect_changes A B).total_previous = A.card ∧
    (detect_changes A B).total_current = B.card ∧
    ((detect_changes A B).has_changes = true ↔
      (B \ A).Nonempty ∨ (A \ B).Nonempty) := by
  refine ⟨rfl, rfl, Finset.inter_comm B A, rfl, rfl, ?_⟩
  simp [detect_changes, Finset.card_pos]

/-! ### Claim C3: alerts fire exactly on newly available items -/

/-- C3: `should_send_alert (detect_changes A B)` holds iff `B − A` is
non-empty; a removal-only diff (for instance `A = {a,b,c}`, `B = {a}`)
never alerts, and `detect_changes A A` has no changes and no alert. -/
theorem should_send_alert_iff_new (A B : Finset String) :
    (should_send_alert (detect_changes A B) = true ↔ (B \ A).Nonempty) ∧
    should_send_alert (detect_changes {"a", "b", "c"} {"a"}) = false ∧
    (detect_changes A A).has_changes = false ∧
    should_send_alert (detect_changes A A) = false := by
  refine ⟨?_, by decide, ?_, ?_⟩
  · simp [should_send_alert, detect_changes, Finset.card_pos]
  · simp [detect_changes]
  · simp [should_send_alert, detect_changes]

/-! ### Claim C7: phone validation -/

/-- C7: `validate_phone_number` accepts exactly the strings that, after
removing every character other than digits and the plus sign, either are
a plus sign followed by 10 to 15 digits (returned in that cleaned form)
or are exactly 10 digits (returned with "+57" prefixed); every other
input is rejected with the original string returned; in particular
"3001234567" and "+57 300 123 4567" both normalize to "+573001234567"
and "123" is invalid. -/
theorem validate_phone_number_spec (s : String) :
    ((validate_phone_number s).1 = true ↔
      (matchesIntl (cleanPhone s) = true ∨ matchesLocal10 (cleanPhone s) = true)) ∧
    (validate_phone_number s).2 =
      (if matchesIntl (cleanPhone s) then cleanPhone s
       else if matchesLocal10 (cleanPhone s) then "+57" ++ cleanPhone s
       else s) ∧
    validate_phone_number "3001234567" = (true, "+573001234567") ∧
    validate_phone_number "+57 300 123 4567" = (true, "+573001234567") ∧
    validate_phone_number "123" = (false, "123") := by
  refine ⟨?_, ?_, by decide, by decide, by decide⟩ <;>
  · unfold validate_phone_number
    by_cases h1 : matchesIntl (cleanPhone s) <;>
      by_cases h2 : matchesLocal10 (cleanPhone s) <;>
        simp [h1, h2]

/-! ### Claim C10: a label containing "no disponible" is classified available -/

/-- C10: any raw item whose label field contains the substring
"no disponible" is classified available, because the available-synonym
check (which matches the substring "disponible") runs first. -/
theorem no_disponible_classified_available (sec : RawSector)
    (h : ContainsSub "no disponible".data sec.aria_label.data) :
    _is_sector_available sec = true := by
  have h1 : ContainsSub "disponible".data "no disponible".data :=
    ⟨"no ".data, [], by decide⟩
  have h2 : ContainsSub "disponible".data sec.aria_label.data := h1.trans h
  have h3 := h2.map Char.toLower
  have h4 : "disponible".data.map Char.toLower = "disponible".data := by decide
  rw [h4] at h3
  have h5 : containsChars "disponible".data (lowerStr sec.aria_label).data = true := by
    simpa [lowerStr] using containsChars_of_sub h3
  unfold _is_sector_available
  simp [available_indicators, h5]

/-- Witness for C10 at a concrete Spanish not-available label. -/
theorem no_disponible_classified_available_witness :
    _is_sector_available { aria_label := "Sector no disponible" } = true :=
  no_disponible_classified_available _ ⟨"Sector ".data, [], by decide⟩

/-! ### Claim C9: identifier cleanup -/

/-- The identifier-cleanup rule exactly as the claim words it (for the
refinement comparison): strip every character outside the set of letters,
digits, whitespace and hyphen; collapse each run of whitespace to a
single underscore; lower-case.  (No underscore survives the strip, and
no trimming is performed.) -/
def claimedCleanup (s : String) : String :=
  ⟨(collapseWs (s.data.filter
      (fun c => c.isAlpha || c.isDigit || pySpace c || c == '-'))).map Char.toLower⟩

/-- C9 fails on the code: the Python word-character class keeps
underscores that the claimed rule strips.  At the raw identifier "a_b"
of an available item, the code produces the canonical id "a_b" while the
claimed rule produces "ab". -/
theorem cleanup_claim_counterexample :
    _is_sector_available { id := "a_b", aria_label := "disponible" } = true ∧
    _extract_sector_id { id := "a_b", aria_label := "disponible" } = some "a_b" ∧
    normalize_sectors [{ id := "a_b", aria_label := "disponible" }] = {"a_b"} ∧
    claimedCleanup "a_b" = "ab" ∧
    ("a_b" : String) ≠ "ab" := by
  decide

/-- The cleanup rule as amended: keep letters, digits, underscores,
whitespace and hyphens; trim leading and trailing whitespace; collapse
each remaining whitespace run to a single underscore; lower-case. -/
def amendedCleanup (s : String) : String :=
  ⟨(collapseWs (pyStripChars (s.data.filter
      (fun c => c.isAlpha || c.isDigit || c == '_' || pySpace c || c == '-')))).map
    Char.toLower⟩

/-- C9 as amended: the canonical identifier of every available item with a
non-empty identifier is produced by the amended cleanup rule; the raw id
"Sector A-1 (Premium)!" yields "sector_a-1_premium"; an identifier that
cleans up to the empty string is dropped from the output set, and every
surviving identifier reaches the output set. -/
theorem cleanup_amended :
    (∀ raw : String, cleanSectorId raw = amendedCleanup raw) ∧
    cleanSectorId "Sector A-1 (Premium)!" = "sector_a-1_premium" ∧
    (∀ l : List RawSector, "" ∉ normalize_sectors l) ∧
    (∀ (l : List RawSector) (sec : RawSector), sec ∈ l →
      _is_sector_available sec = true →
      ∀ sid, _extract_sector_id sec = some sid → sid ≠ "" →
        sid ∈ normalize_sectors l) := by
  refine ⟨?_, by decide, ?_, ?_⟩
  · intro raw
    have hp : (fun c => pyWordChar c || pySpace c || c == '-') =
        (fun c : Char => c.isAlpha || c.isDigit || c == '_' || pySpace c || c == '-') := by
      funext c
      simp [pyWordChar, Char.isAlphanum, Bool.or_assoc]
    unfold cleanSectorId amendedCleanup
    rw [hp]
  · intro l hmem
    simp only [normalize_sectors, List.mem_toFinset, List.mem_filterMap] at hmem
    obtain ⟨sec, _, hsec⟩ := hmem
    by_cases ha : _is_sector_available sec
    · simp only [ha, if_true] at hsec
      cases he : _extract_sector_id sec with
      | none => simp [he] at hsec
      | some sid =>
        simp only [he] at hsec
        by_cases hz : sid == ""
        · simp [hz] at hsec
        · simp only [hz, if_neg, Bool.false_eq_true, not_false_eq_true,
            if_false, Option.some.injEq] at hsec
          subst hsec
          simp at hz
    · simp [ha] at hsec
  · intro l sec hmem havail sid hext hne
    simp only [normalize_sectors, List.mem_toFinset, List.mem_filterMap]
    refine ⟨sec, hmem, ?_⟩
    simp [havail, hext, hne]

/-- Witness for the amended C9 at the concrete one-item input. -/
theorem cleanup_amended_witness :
    "sector_a-1_premium" ∈
      normalize_sectors [{ id := "Sector A-1 (Premium)!", aria_label := "disponible" }] :=
  cleanup_amended.2.2.2 [{ id := "Sector A-1 (Premium)!", aria_label := "disponible" }]
    { id := "Sector A-1 (Premium)!", aria_label := "disponible" }
    (by decide) (by decide) "sector_a-1_premium" (by decide) (by decide)

/-! ### Claim C1: the deduplication gate -/

/-- C1: with the transport configured, whenever the delivery-attempt log
holds a successful delivery of the exact fixed alert text inside the
trailing 5-minute window, `send_change_alert` returns skipped with
reason "deduplication", logs nothing, and attempts no delivery —
regardless of the target id passed and of which recipient produced the
logged delivery. -/
theorem dedup_gate_skips (st : SMSState) (hconf : st.configured = true)
    (e : SMSLogEntry) (hmem : e ∈ st.smsLog) (hsucc : e.success = true)
    (hmsg : e.message = ALERT_MESSAGE)
    (hrecent : st.now - DEDUPLICATION_WINDOW_MINUTES < e.timestamp)
    (eventId : String) (newSectors : List String) (dryRun : Bool)
    (deliver : String → Option String) :
    (send_change_alert st eventId newSectors dryRun deliver).1.skipped = true ∧
    (send_change_alert st eventId newSectors dryRun deliver).1.reason =
      some "deduplication" ∧
    (send_change_alert st eventId newSectors dryRun deliver).1.success = true ∧
    (send_change_alert st eventId newSectors dryRun deliver).2.1 = st ∧
    (send_change_alert st eventId newSectors dryRun deliver).2.2 = [] := by
  have hskip : _should_skip_due_to_deduplication st = true := by
    unfold _should_skip_due_to_deduplication
    rw [List.any_eq_true]
    exact ⟨e, hmem, by simp [hsucc, hmsg, hrecent]⟩
  simp [send_change_alert, hconf, hskip]

/-- Witness for C1: a delivery of the alert text to one recipient at
minute 8 suppresses, at minute 10, an alert for a different target with
a different recipient registered. -/
theorem dedup_gate_skips_witness :
    (send_change_alert
      { configured := true
        smsLog := [⟨"+573001112233", "Hay cambios en la plataforma", true, none, 8⟩]
        phones := [⟨"+573009998877", true, 0⟩]
        now := 10 }
      "pq24" ["sector_x"] false (fun _ => none)).1.reason = some "deduplication" :=
  (dedup_gate_skips _ rfl
    ⟨"+573001112233", "Hay cambios en la plataforma", true, none, 8⟩
    (by decide) rfl rfl (by decide) "pq24" ["sector_x"] false _).2.1

/-! ### Claim C4: batch fan-out accounting -/

/-- Count of recipients whose delivery attempt succeeds (dry-run attempts
always count as sent). -/
def sentOf (deliver : String → Option String) (dryRun : Bool)
    (phones : List String) : Nat :=
  (phones.filter (fun p => dryRun || (deliver p).isNone)).length

/-- Count of recipients whose delivery attempt fails. -/
def failedOf (deliver : String → Option String) (dryRun : Bool)
    (phones : List String) : Nat :=
  (phones.filter (fun p => !(dryRun || (deliver p).isNone))).length

lemma sendLoop_nil (deliver : String → Option String) (dryRun : Bool) (now : Int)
    (acc : BatchResult × List SMSLogEntry × List String) :
    sendLoop deliver dryRun now [] acc = acc := rfl

lemma sendLoop_cons_dry (deliver : String → Option String) (now : Int) (p : String)
    (rest : List String) (res : BatchResult) (log : List SMSLogEntry)
    (att : List String) :
    sendLoop deliver true now (p :: rest) (res, log, att) =
      sendLoop deliver true now rest
        ({ res with sent_count := res.sent_count + 1 },
         log ++ [⟨p, ALERT_MESSAGE, true, none, now⟩], att ++ [p]) := rfl

lemma sendLoop_cons_ok (deliver : String → Option String) (now : Int) (p : String)
    (rest : List String) (res : BatchResult) (log : List SMSLogEntry)
    (att : List String) (h : deliver p = none) :
    sendLoop deliver false now (p :: rest) (res, log, att) =
      sendLoop deliver false now rest
        ({ res with sent_count := res.sent_count + 1 },
         log ++ [⟨p, ALERT_MESSAGE, true, none, now⟩], att ++ [p]) := by
  simp [sendLoop, h]

lemma sendLoop_cons_err (deliver : String → Option String) (now : Int) (p : String)
    (rest : List String) (res : BatchResult) (log : List SMSLogEntry)
    (att : List String) (err : String) (h : deliver p = some err) :
    sendLoop deliver false now (p :: rest) (res, log, att) =
      sendLoop deliver false now rest
        ({ res with
            failed_count := res.failed_count + 1
            errors := res.errors ++ [p ++ ": " ++ err] },
         log ++ [⟨p, ALERT_MESSAGE, false, some err, now⟩], att ++ [p]) := by
  simp [sendLoop, h]

lemma sentOf_cons_dry (deliver : String → Option String) (p : String)
    (rest : List String) :
    sentOf deliver true (p :: rest) = sentOf deliver true rest + 1 := by
  simp [sentOf, List.filter_cons]

lemma failedOf_cons_dry (deliver : String → Option String) (p : String)
    (rest : List String) :
    failedOf deliver true (p :: rest) = failedOf deliver true rest := by
  simp [failedOf, List.filter_cons]

lemma sentOf_cons_ok (deliver : String → Option String) (p : String)
    (rest : List String) (h : deliver p = none) :
    sentOf deliver false (p :: rest) = sentOf deliver false rest + 1 := by
  simp [sentOf, List.filter_cons, h]

lemma failedOf_cons_ok (deliver : String → Option String) (p : String)
    (rest : List String) (h : deliver p = none) :
    failedOf deliver false (p :: rest) = failedOf deliver false rest := by
  simp [failedOf, List.filter_cons, h]

lemma sentOf_cons_err (deliver : String → Option String) (p : String)
    (rest : List String) (err : String) (h : deliver p = some err) :
    sentOf deliver false (p :: rest) = sentOf deliver false rest := by
  simp [sentOf, List.filter_cons, h]

lemma failedOf_cons_err (deliver : String → Option String) (p : String)
    (rest : List String) (err : String) (h : deliver p = some err) :
    failedOf deliver false (p :: rest) = failedOf deliver false rest + 1 := by
  simp [failedOf, List.filter_cons, h]

lemma sentOf_add_failedOf (deliver : String → Option String) :
    ∀ (phones : List String) (dryRun : Bool),
      sentOf deliver dryRun phones + failedOf deliver dryRun phones = phones.length := by
  intro phones
  induction phones with
  | nil => intro dryRun; rfl
  | cons p rest ih =>
    intro dryRun
    cases dryRun with
    | true =>
      rw [sentOf_cons_dry, failedOf_cons_dry]
      have h := ih true
      simp
      omega
    | false =>
      cases hdel : deliver p with
      | none =>
        rw [sentOf_cons_ok deliver p rest hdel, failedOf_cons_ok deliver p rest hdel]
        have h := ih false
        simp
        omega
      | some err =>
        rw [sentOf_cons_err deliver p rest err hdel,
          failedOf_cons_err deliver p rest err hdel]
        have h := ih false
        simp
        omega

lemma sendLoop_spec (deliver : String → Option String) (now : Int) :
    ∀ (phones : List String) (dryRun : Bool) (res : BatchResult)
      (log : List SMSLogEntry) (att : List String),
      (sendLoop deliver dryRun now phones (res, log, att)).1.success = res.success ∧
      (sendLoop deliver dryRun now phones (res, log, att)).1.sent_count =
        res.sent_count + sentOf deliver dryRun phones ∧
      (sendLoop deliver dryRun now phones (res, log, att)).1.failed_count =
        res.failed_count + failedOf deliver dryRun phones ∧
      (sendLoop deliver dryRun now phones (res, log, att)).1.errors.length =
        res.errors.length + failedOf deliver dryRun phones ∧
      (sendLoop deliver dryRun now phones (res, log, att)).1.total_phones =
        res.total_phones := by
  intro phones
  induction phones with
  | nil =>
    intro dryRun res log att
    simp [sendLoop_nil, sentOf, failedOf]
  | cons p rest ih =>
    intro dryRun res log att
    cases dryRun with
    | true =>
      rw [sendLoop_cons_dry]
      have h := ih true { res with sent_count := res.sent_count + 1 }
        (log ++ [⟨p, ALERT_MESSAGE, true, none, now⟩]) (att ++ [p])
      rw [sentOf_cons_dry, failedOf_cons_dry]
      refine ⟨h.1, ?_, ?_, ?_, h.2.2.2.2⟩
      · rw [h.2.1]; simp; omega
      · rw [h.2.2.1]
      · rw [h.2.2.2.1]
    | false =>
      cases hdel : deliver p with
      | none =>
        rw [sendLoop_cons_ok deliver now p rest res log att hdel]
        have h := ih false { res with sent_count := res.sent_count + 1 }
          (log ++ [⟨p, ALERT_MESSAGE, true, none, now⟩]) (att ++ [p])
        rw [sentOf_cons_ok deliver p rest hdel, failedOf_cons_ok deliver p rest hdel]
        refine ⟨h.1, ?_, ?_, ?_, h.2.2.2.2⟩
        · rw [h.2.1]; simp; omega
        · rw [h.2.2.1]
        · rw [h.2.2.2.1]
      | some err =>
        rw [sendLoop_cons_err deliver now p rest res log att err hdel]
        have h := ih false
          { res with
              failed_count := res.failed_count + 1
              errors := res.errors ++ [p ++ ": " ++ err] }
          (log ++ [⟨p, ALERT_MESSAGE, false, some err, now⟩]) (att ++ [p])
        rw [sentOf_cons_err deliver p rest err hdel,
          failedOf_cons_err deliver p rest err hdel]
        refine ⟨h.1, ?_, ?_, ?_, h.2.2.2.2⟩
        · rw [h.2.1]
        · rw [h.2.2.1]; simp; omega
        · rw [h.2.2.2.1]; simp; omega

/-- When every gate passes, `send_change_alert` is the fan-out loop run
from the initial batch result. -/
lemma send_change_alert_eq_loop (st : SMSState) (eventId : String)
    (newSectors : List String) (dryRun : Bool) (deliver : String → Option String)
    (hconf : st.configured = true)
    (hskip : _should_skip_due_to_deduplication st = false)
    (hne : (_get_active_phone_numbers st).isEmpty = false) :
    send_change_alert st eventId newSectors dryRun deliver =
      ((sendLoop deliver dryRun st.now (_get_active_phone_numbers st)
          ({ success := true, total_phones := (_get_active_phone_numbers st).length,
             dry_run := dryRun }, st.smsLog, [])).1,
       { st with
          smsLog := (sendLoop deliver dryRun st.now (_get_active_phone_numbers st)
            ({ success := true, total_phones := (_get_active_phone_numbers st).length,
               dry_run := dryRun }, st.smsLog, [])).2.1 },
       (sendLoop deliver dryRun st.now (_get_active_phone_numbers st)
          ({ success := true, total_phones := (_get_active_phone_numbers st).length,
             dry_run := dryRun }, st.smsLog, [])).2.2) := by
  simp [send_change_alert, hconf, hskip, hne]

/-- The batch result always reports success when the transport is
configured. -/
lemma send_change_alert_success_of_configured (st : SMSState) (eventId : String)
    (newSectors : List String) (dryRun : Bool) (deliver : String → Option String)
    (hconf : st.configured = true) :
    (send_change_alert st eventId newSectors dryRun deliver).1.success = true := by
  cases hskip : _should_skip_due_to_deduplication st with
  | true => simp [send_change_alert, hconf, hskip]
  | false =>
    cases hne : (_get_active_phone_numbers st).isEmpty with
    | true => simp [send_change_alert, hconf, hskip, hne]
    | false =>
      rw [send_change_alert_eq_loop st eventId newSectors dryRun deliver hconf hskip hne]
      exact (sendLoop_spec deliver st.now (_get_active_phone_numbers st) dryRun _ _ _).1

/-- C4: when the fan-out over the active recipients runs to completion,
the batch result reports success with sent and failed counts summing to
the number of active recipients and one error entry per failure; a
result with `success = false` can only come from the configuration gate,
which attempts and logs nothing. -/
theorem batch_fanout_accounting (st : SMSState) (eventId : String)
    (newSectors : List String) (dryRun : Bool)
    (deliver : String → Option String) :
    (st.configured = true →
      _should_skip_due_to_deduplication st = false →
      _get_active_phone_numbers st ≠ [] →
      (send_change_alert st eventId newSectors dryRun deliver).1.success = true ∧
      (send_change_alert st eventId newSectors dryRun deliver).1.sent_count =
        sentOf deliver dryRun (_get_active_phone_numbers st) ∧
      (send_change_alert st eventId newSectors dryRun deliver).1.failed_count =
        failedOf deliver dryRun (_get_active_phone_numbers st) ∧
      (send_change_alert st eventId newSectors dryRun deliver).1.sent_count +
        (send_change_alert st eventId newSectors dryRun deliver).1.failed_count =
        (_get_active_phone_numbers st).length ∧
      (send_change_alert st eventId newSectors dryRun deliver).1.errors.length =
        (send_change_alert st eventId newSectors dryRun deliver).1.failed_count) ∧
    ((send_change_alert st eventId newSectors dryRun deliver).1.success = false →
      st.configured = false ∧
      (send_change_alert st eventId newSectors dryRun deliver).2.1 = st ∧
      (send_change_alert st eventId newSectors dryRun deliver).2.2 = []) := by
  constructor
  · intro hconf hskip hphones
    have hne : (_get_active_phone_numbers st).isEmpty = false := by
      cases hp : _get_active_phone_numbers st with
      | nil => exact absurd hp hphones
      | cons a l => rfl
    rw [send_change_alert_eq_loop st eventId newSectors dryRun deliver hconf hskip hne]
    have h := sendLoop_spec deliver st.now (_get_active_phone_numbers st) dryRun
      { success := true, total_phones := (_get_active_phone_numbers st).length,
        dry_run := dryRun }
      st.smsLog []
    have hsum := sentOf_add_failedOf deliver (_get_active_phone_numbers st) dryRun
    refine ⟨h.1, ?_, ?_, ?_, ?_⟩
    · rw [h.2.1]
      simp
    · rw [h.2.2.1]
      simp
    · rw [h.2.1, h.2.2.1]
      simpa using hsum
    · rw [h.2.2.1, h.2.2.2.1]
      simp
  · intro hfail
    cases hconf : st.configured with
    | true =>
      rw [send_change_alert_success_of_configured st eventId newSectors dryRun deliver
        hconf] at hfail
      exact absurd hfail (by simp)
    | false =>
      refine ⟨rfl, ?_, ?_⟩ <;> simp [send_change_alert, hconf]

/-- Witness for C4: three active recipients, one delivery failure, batch
succeeds with counts 2 and 1 and one error entry. -/
theorem batch_fanout_accounting_witness :
    (send_change_alert
      { configured := true, smsLog := [],
        phones := [⟨"+573000000001", true, 0⟩, ⟨"+573000000002", true, 0⟩,
          ⟨"+573000000003", true, 0⟩],
        now := 0 }
      "pq23" ["sector_x"] false
      (fun p => if p == "+573000000002" then some "carrier rejected" else none)).1.success
        = true ∧
    (send_change_alert
      { configured := true, smsLog := [],
        phones := [⟨"+573000000001", true, 0⟩, ⟨"+573000000002", true, 0⟩,
          ⟨"+573000000003", true, 0⟩],
        now := 0 }
      "pq23" ["sector_x"] false
      (fun p => if p == "+573000000002" then some "carrier rejected" else none)).1.sent_count
        = 2 ∧
    (send_change_alert
      { configured := true, smsLog := [],
        phones := [⟨"+573000000001", true, 0⟩, ⟨"+573000000002", true, 0⟩,
          ⟨"+573000000003", true, 0⟩],
        now := 0 }
      "pq23" ["sector_x"] false
      (fun p => if p == "+573000000002" then some "carrier rejected" else none)).1.failed_count
        = 1 ∧
    (send_change_alert
      { configured := true, smsLog := [],
        phones := [⟨"+573000000001", true, 0⟩, ⟨"+573000000002", true, 0⟩,
          ⟨"+573000000003", true, 0⟩],
        now := 0 }
      "pq23" ["sector_x"] false
      (fun p => if p == "+573000000002" then some "carrier rejected" else none)).1.errors.length
        = 1 := by
  have h := (batch_fanout_accounting
    { configured := true, smsLog := [],
      phones := [⟨"+573000000001", true, 0⟩, ⟨"+573000000002", true, 0⟩,
        ⟨"+573000000003", true, 0⟩],
      now := 0 }
    "pq23" ["sector_x"] false
    (fun p => if p == "+573000000002" then some "carrier rejected" else none)).1
    rfl rfl (by decide)
  refine ⟨h.1, ?_, ?_, ?_⟩
  · rw [h.2.1]; decide
  · rw [h.2.2.1]; decide
  · rw [h.2.2.2.2, h.2.2.1]; decide


/-! ### Claim C5: operation order within one target cycle -/

/-- C5 fails on the code: in a cycle that detects new items, the code
persists the new snapshot and updates the timestamp before it persists
the change record and dispatches the alert, not after.  Concretely, with
the scraper returning one sector and an empty previous snapshot, the
trace places `saveSnapshot` strictly before `logChange`, contradicting
the claimed order. -/
theorem cycle_order_counterexample :
    0 < (monitor_single_event "pq23" (some ["sector_a"]) ∅ true
        true).result.new_sectors.card ∧
    (monitor_single_event "pq23" (some ["sector_a"]) ∅ true true).trace =
      [.observe, .normalize, .readPrevious, .detect, .saveSnapshot,
       .updateTimestamp, .logChange, .dispatchAlert] ∧
    List.indexOf MonOp.saveSnapshot
        (monitor_single_event "pq23" (some ["sector_a"]) ∅ true true).trace <
      List.indexOf MonOp.logChange
        (monitor_single_event "pq23" (some ["sector_a"]) ∅ true true).trace := by
  decide

/-- C5 as amended: within a cycle that detects a non-empty new-items set
the operations occur in the order observe, normalize, read previous
snapshot, detect, persist new snapshot, update last-checked timestamp,
persist change record, dispatch alert — the change record is persisted
and the alert dispatched only after the snapshot write and timestamp
update. -/
theorem cycle_order_amended (eventId : String) (current : List String)
    (prev : Finset String) (snapOk smsOk : Bool)
    (h : (current.toFinset \ prev).Nonempty) :
    (monitor_single_event eventId (some current) prev snapOk smsOk).trace =
      [.observe, .normalize, .readPrevious, .detect, .saveSnapshot,
       .updateTimestamp, .logChange, .dispatchAlert] := by
  have halert : should_send_alert (detect_changes prev current.toFinset) = true := by
    simp [should_send_alert, detect_changes, Finset.card_pos, h]
  simp [monitor_single_event, halert]

/-- Witness for the amended C5 at a concrete cycle with one new sector. -/
theorem cycle_order_amended_witness :
    (monitor_single_event "pq24" (some ["sector_b"]) ∅ true true).trace =
      [.observe, .normalize, .readPrevious, .detect, .saveSnapshot,
       .updateTimestamp, .logChange, .dispatchAlert] :=
  cycle_order_amended "pq24" ["sector_b"] ∅ true true (by decide)

/-! ### Claim C6: a failed snapshot write is still reported as success -/

/-- C6 exhibits a code bug: `_save_snapshot` swallows the write failure
and `monitor_single_event` still reports `success = true` for the cycle,
although the snapshot was never persisted — contradicting the stated
requirement that a failed snapshot write must not be reported as a
successful cycle. -/
theorem snapshot_failure_reported_success :
    (monitor_single_event "pq23" (some ["sector_a"]) ∅ false
        true).result.success = true ∧
    (monitor_single_event "pq23" (some ["sector_a"]) ∅ false
        true).snapshotPersisted = false := by
  decide

/-! ### Claim C8: recipient registration preserves uniqueness -/

lemma reactivateFirst_map_phone (p : String) (t : Int) :
    ∀ l : List PhoneRecord,
      (reactivateFirst l p t).map (fun r => r.phone) = l.map (fun r => r.phone) := by
  intro l
  induction l with
  | nil => rfl
  | cons r rest ih =>
    by_cases hr : (r.phone == p) = true
    · simp [reactivateFirst, hr]
    · have hr2 : (r.phone == p) = false := by
        cases hv : (r.phone == p)
        · rfl
        · exact absurd hv hr
      simp [reactivateFirst, hr2, ih]

lemma reactivateFirst_mem (p : String) (t : Int) :
    ∀ l : List PhoneRecord, (∃ r ∈ l, r.phone = p) →
      ∃ r2 ∈ reactivateFirst l p t,
        r2.phone = p ∧ r2.active = true ∧ r2.registered_at = t := by
  intro l
  induction l with
  | nil => rintro ⟨r, hr, -⟩; exact absurd hr (List.not_mem_nil r)
  | cons r rest ih =>
    intro hex
    by_cases hr : (r.phone == p) = true
    · refine ⟨{ r with active := true, registered_at := t }, ?_, ?_, rfl, rfl⟩
      · simp [reactivateFirst, hr]
      · simpa using hr
    · have hr2 : (r.phone == p) = false := by
        cases hv : (r.phone == p)
        · rfl
        · exact absurd hv hr
      obtain ⟨r0, hr0mem, hr0p⟩ := hex
      rcases List.mem_cons.mp hr0mem with heq | htail
      · exact absurd (by rw [← heq]; simp [hr0p]) hr
      · obtain ⟨r2, hmem2, hprops⟩ := ih ⟨r0, htail, hr0p⟩
        exact ⟨r2, by simp [reactivateFirst, hr2, hmem2], hprops⟩

/-- C8: `register_phone_number` preserves the at-most-one-row-per-address
invariant; an address whose normalized form has an active row is
rejected with no state change; one whose normalized form has an inactive
row is reactivated in place (same row count, same address multiset,
active flag set, timestamp updated); only an address with no existing
row appends a row. -/
theorem register_preserves_uniqueness (st : SMSState) (input : String)
    (hinv : (st.phones.map (fun r => r.phone)).Nodup) :
    ((register_phone_number st input).2.phones.map (fun r => r.phone)).Nodup ∧
    (∀ norm, validate_phone_number input = (true, norm) →
      (∀ r, st.phones.find? (fun x => x.phone == norm) = some r →
        (r.active = true →
          (register_phone_number st input).1.success = false ∧
          (register_phone_number st input).2 = st) ∧
        (r.active = false →
          (register_phone_number st input).1.success = true ∧
          (register_phone_number st input).2.phones.length = st.phones.length ∧
          (register_phone_number st input).2.phones.map (fun x => x.phone) =
            st.phones.map (fun x => x.phone) ∧
          ∃ r2 ∈ (register_phone_number st input).2.phones,
            r2.phone = norm ∧ r2.active = true ∧ r2.registered_at = st.now)) ∧
      (st.phones.find? (fun x => x.phone == norm) = none →
        (register_phone_number st input).2.phones =
          st.phones ++ [⟨norm, true, st.now⟩])) := by
  rcases hveq : validate_phone_number input with ⟨ok, norm0⟩
  cases ok with
  | false =>
    constructor
    · have hst : (register_phone_number st input).2 = st := by
        simp [register_phone_number, hveq]
      rw [hst]
      exact hinv
    · intro norm hval
      exact absurd hval (by simp)
  | true =>
    cases hf : st.phones.find? (fun x => x.phone == norm0) with
    | some r =>
      cases hact : r.active with
      | true =>
        have hst : (register_phone_number st input).2 = st := by
          simp [register_phone_number, hveq, hf, hact]
        constructor
        · rw [hst]
          exact hinv
        · intro norm hval
          have hn : norm0 = norm := by simpa using hval
          subst hn
          refine ⟨?_, ?_⟩
          · intro r2 hf2
            rw [hf] at hf2
            have hr2 : r = r2 := Option.some.inj hf2
            subst hr2
            constructor
            · intro _
              exact ⟨by simp [register_phone_number, hveq, hf, hact], hst⟩
            · intro hact2
              rw [hact] at hact2
              exact absurd hact2 (by simp)
          · intro hf2
            rw [hf] at hf2
            exact absurd hf2 (by simp)
      | false =>
        have hphones : (register_phone_number st input).2.phones =
            reactivateFirst st.phones norm0 st.now := by
          simp [register_phone_number, hveq, hf, hact]
        have hmap := reactivateFirst_map_phone norm0 st.now st.phones
        constructor
        · rw [hphones, hmap]
          exact hinv
        · intro norm hval
          have hn : norm0 = norm := by simpa using hval
          subst hn
          refine ⟨?_, ?_⟩
          · intro r2 hf2
            rw [hf] at hf2
            have hr2 : r = r2 := Option.some.inj hf2
            subst hr2
            constructor
            · intro hact2
              rw [hact] at hact2
              exact absurd hact2 (by simp)
            · intro _
              refine ⟨by simp [register_phone_number, hveq, hf, hact], ?_, ?_, ?_⟩
              · rw [hphones]
                have := congrArg List.length hmap
                simpa using this
              · rw [hphones, hmap]
              · rw [hphones]
                apply reactivateFirst_mem norm0 st.now st.phones
                refine ⟨r, List.mem_of_find?_eq_some hf, ?_⟩
                have := List.find?_some hf
                simpa using this
          · intro hf2
            rw [hf] at hf2
            exact absurd hf2 (by simp)
    | none =>
      have hphones : (register_phone_number st input).2.phones =
          st.phones ++ [⟨norm0, true, st.now⟩] := by
        simp [register_phone_number, hveq, hf]
      have hnomem : ∀ x ∈ st.phones, x.phone ≠ norm0 := by
        intro x hx
        have := List.find?_eq_none.mp hf x hx
        simpa using this
      constructor
      · rw [hphones, List.map_append]
        simp only [List.map_cons, List.map_nil]
        apply List.Nodup.append hinv (List.nodup_singleton _)
        intro a ha hb
        simp only [List.mem_singleton] at hb
        subst hb
        obtain ⟨x, hx, hxp⟩ := List.mem_map.mp ha
        exact hnomem x hx hxp
      · intro norm hval
        have hn : norm0 = norm := by simpa using hval
        subst hn
        refine ⟨?_, ?_⟩
        · intro r2 hf2
          rw [hf] at hf2
          exact absurd hf2 (by simp)
        · intro _
          exact hphones

/-- Witness for C8: a concrete state with one inactive row for the
normalized address is reactivated in place. -/
theorem register_preserves_uniqueness_witness :
    (register_phone_number
      { configured := true, smsLog := [],
        phones := [⟨"+573001234567", false, 0⟩], now := 42 }
      "3001234567").1.success = true ∧
    (register_phone_number
      { configured := true, smsLog := [],
        phones := [⟨"+573001234567", false, 0⟩], now := 42 }
      "3001234567").2.phones.length = 1 := by
  have h := ((register_preserves_uniqueness
    { configured := true, smsLog := [],
      phones := [⟨"+573001234567", false, 0⟩], now := 42 }
    "3001234567" (by decide)).2 "+573001234567" (by decide)).1
    ⟨"+573001234567", false, 0⟩ (by decide)
  have h2 := h.2 rfl
  exact ⟨h2.1, by rw [h2.2.1]; rfl⟩

end TicketMonitor
